import Mathlib

/-!
Verification of the voice-search controller of the cardetails admin
dashboard (src/unnamed/part_000, the React `Dashboard` component).

The embedding models the component's state hooks as a record
(`DashState`), its event handlers (`handleVoiceSearch`,
`recognition.onstart/onresult/onerror/onend`, `handleSearch`, the form
submit, `setTimeout` firing, and fetch resolution) as a step function on
that record, and runs of the browser event loop as folds over event
lists.  JavaScript closure capture is modelled explicitly: the
`setTimeout(() => handleSearch(), 800)` callback registered in
`recognition.onresult` invokes the `handleSearch` closure created in the
render in which `handleVoiceSearch` ran, so the search key it uses is
the value of `searchReg` at mic-click time (`capturedKey`), not the
value at timer-fire time.
-/

namespace CarDetails

/-- Whitespace test on code points, modelling the JavaScript regexp
class directly on the common range (space, tab, LF, VT, FF, CR, NBSP);
also the class trimmed by String.prototype.trim on that range. -/
def isWsChar (c : Char) : Bool :=
  c.toNat == 32 || c.toNat == 9 || c.toNat == 10 || c.toNat == 11 ||
  c.toNat == 12 || c.toNat == 13 || c.toNat == 160

/-- ASCII uppercase mapping of one character, as
String.prototype.toUpperCase acts on the basic latin range. -/
def upperChar (c : Char) : Char :=
  if 97 ≤ c.toNat ∧ c.toNat ≤ 122 then Char.ofNat (c.toNat - 32) else c

/-- Leading and trailing whitespace removal on character lists
(String.prototype.trim). -/
def trimChars (l : List Char) : List Char :=
  ((l.dropWhile isWsChar).reverse.dropWhile isWsChar).reverse

/-- Removal of every whitespace character, as the replacement of all
matches of the whitespace regexp by the empty string. -/
def stripWsChars (l : List Char) : List Char :=
  l.filter (fun c => !(isWsChar c))

/-- transcript.trim().toUpperCase(): the value bound to `transcript` in
`recognition.onresult` and echoed in the acknowledgment message. -/
def trimUpper (s : String) : String :=
  String.mk ((trimChars s.data).map upperChar)

/-- The query normalizer: trim, uppercase, strip all whitespace.  This
is the value passed to `setSearchReg` in `recognition.onresult`. -/
def normalize (s : String) : String :=
  String.mk (stripWsChars ((trimChars s.data).map upperChar))

theorem toNat_ofNat_valid (n : Nat) (h : n.isValidChar) :
    (Char.ofNat n).toNat = n := by
  rw [Char.ofNat, dif_pos h]
  simp [Char.ofNatAux, Char.toNat, UInt32.toNat]

theorem upperChar_toNat_of_lower (c : Char) (h1 : 97 ≤ c.toNat)
    (h2 : c.toNat ≤ 122) : (upperChar c).toNat = c.toNat - 32 := by
  have hv : (c.toNat - 32).isValidChar := Or.inl (by omega)
  simp [upperChar, h1, h2, toNat_ofNat_valid _ hv]

theorem upperChar_idem (c : Char) : upperChar (upperChar c) = upperChar c := by
  by_cases h : 97 ≤ c.toNat ∧ c.toNat ≤ 122
  · have ht : (upperChar c).toNat = c.toNat - 32 :=
      upperChar_toNat_of_lower c h.1 h.2
    have : ¬ (97 ≤ (upperChar c).toNat ∧ (upperChar c).toNat ≤ 122) := by
      rw [ht]; omega
    rw [upperChar, if_neg this]
  · have hc : upperChar c = c := by rw [upperChar, if_neg h]
    rw [hc, hc]

theorem isWsChar_iff (c : Char) :
    isWsChar c = true ↔ (c.toNat = 32 ∨ c.toNat = 9 ∨ c.toNat = 10 ∨
      c.toNat = 11 ∨ c.toNat = 12 ∨ c.toNat = 13 ∨ c.toNat = 160) := by
  simp [isWsChar, or_assoc]

theorem isWsChar_upperChar (c : Char) :
    isWsChar (upperChar c) = isWsChar c := by
  by_cases h : 97 ≤ c.toNat ∧ c.toNat ≤ 122
  · have ht : (upperChar c).toNat = c.toNat - 32 :=
      upperChar_toNat_of_lower c h.1 h.2
    have ha : isWsChar (upperChar c) = false := by
      rw [Bool.eq_false_iff]
      intro hh
      have := (isWsChar_iff _).mp hh
      rw [ht] at this
      omega
    have hb : isWsChar c = false := by
      rw [Bool.eq_false_iff]
      intro hh
      have := (isWsChar_iff _).mp hh
      omega
    rw [ha, hb]
  · rw [upperChar, if_neg h]

theorem dropWhile_eq_self_of_none (p : Char → Bool) (l : List Char)
    (h : ∀ c ∈ l, p c = false) : l.dropWhile p = l := by
  cases l with
  | nil => rfl
  | cons a l => simp [List.dropWhile_cons, h a (by simp)]

theorem trimChars_eq_self (l : List Char)
    (h : ∀ c ∈ l, isWsChar c = false) : trimChars l = l := by
  unfold trimChars
  rw [dropWhile_eq_self_of_none _ _ h,
    dropWhile_eq_self_of_none _ _ (by intro c hc; exact h c (by simpa using hc)),
    List.reverse_reverse]

theorem stripWsChars_eq_self (l : List Char)
    (h : ∀ c ∈ l, isWsChar c = false) : stripWsChars l = l := by
  unfold stripWsChars
  rw [List.filter_eq_self.mpr]
  intro a ha
  simp [h a ha]

/-- C8: normalization (trim, uppercase, strip all whitespace) is
idempotent: normalizing an already-normalized transcript changes
nothing. -/
theorem C8_normalize_idempotent (s : String) :
    normalize (normalize s) = normalize s := by
  unfold normalize
  have hmem : ∀ c ∈ stripWsChars ((trimChars s.data).map upperChar),
      isWsChar c = false ∧ upperChar c = c := by
    intro c hc
    unfold stripWsChars at hc
    have hws := List.of_mem_filter hc
    have hin := List.mem_of_mem_filter hc
    rcases List.mem_map.mp hin with ⟨a, _, rfl⟩
    refine ⟨by simpa using hws, upperChar_idem a⟩
  set u := stripWsChars ((trimChars s.data).map upperChar) with hu
  have h1 : trimChars u = u := trimChars_eq_self u (fun c hc => (hmem c hc).1)
  have h2 : u.map upperChar = u := by
    calc u.map upperChar = u.map id :=
          List.map_congr_left (fun c hc => (hmem c hc).2)
      _ = u := List.map_id u
  have h3 : stripWsChars u = u :=
    stripWsChars_eq_self u (fun c hc => (hmem c hc).1)
  show String.mk (stripWsChars ((trimChars (String.mk u).data).map upperChar)) =
    String.mk u
  have hdata : (String.mk u).data = u := rfl
  rw [hdata, h1, h2, h3]

/-- The opaque vehicle record returned by the backend (only the fields
read by `speakResult` matter to the controller). -/
structure Vehicle where
  brand : String
  model : String
  reg : String
  price : Nat
deriving DecidableEq

/-- Outcome of one fetch to the backend, as `handleSearch` observes it:
an ok response with a JSON record, a non-ok response whose JSON body may
carry a `detail` field (absent or possibly empty maps to the fallback
through JavaScript truthiness), or a rejected fetch whose error carries
a runtime message. -/
inductive FetchOutcome where
  | ok (v : Vehicle)
  | httpError (detail : Option String)
  | transportError (msg : String)

/-- Runtime capabilities: presence of window.SpeechRecognition (or the
webkit variant) and of window.speechSynthesis. -/
structure Env where
  recogAvail : Bool
  synthAvail : Bool

/-- The Dashboard component state: the useState hooks, the recognition
object's configuration and handler registration, the closure value
captured by the handlers at registration time, outstanding setTimeout
callbacks and in-flight fetches, and observation logs (gateway calls,
speech-synthesis utterances, alert notices). -/
structure DashState where
  searchReg : String
  foundVehicle : Option Vehicle
  error : String
  actionMsg : String
  isListening : Bool
  handlersRegistered : Bool
  capturedKey : String
  recogStarted : Bool
  recogLang : Option String
  recogContinuous : Option Bool
  recogInterim : Option Bool
  pendingTimers : List String
  pendingFetches : List String
  gatewayCalls : List String
  announcements : List String
  alerts : List String
deriving DecidableEq

def initState : DashState where
  searchReg := ""
  foundVehicle := none
  error := ""
  actionMsg := ""
  isListening := false
  handlersRegistered := false
  capturedKey := ""
  recogStarted := false
  recogLang := none
  recogContinuous := none
  recogInterim := none
  pendingTimers := []
  pendingFetches := []
  gatewayCalls := []
  announcements := []
  alerts := []

def envAll : Env := { recogAvail := true, synthAvail := true }

def envNoVoice : Env := { recogAvail := false, synthAvail := false }

def listeningMsg : String := "🎤 Listening... Please say the registration number"

def voiceFailMsg : String := "❌ Could not recognize voice. Try again."

def capabilityAlertMsg : String := "Voice recognition not supported in this browser!"

def notFoundFallback : String := "Vehicle not found"

/-- JavaScript `a || b` on the optional detail string: absent, null or
empty detail falls back. -/
def jsOr (d : Option String) (fb : String) : String :=
  match d with
  | some s => if s = "" then fb else s
  | none => fb

/-- The utterance built by `speakResult`. -/
def speakText (v : Vehicle) : String :=
  "Vehicle " ++ v.brand ++ " " ++ v.model ++ ", Registration " ++ v.reg ++
    ", Price ₹" ++ toString v.price

/-- The three setters at the top of `handleSearch`: setError(""),
setFoundVehicle(null), setActionMsg(""). -/
def clearSearch (s : DashState) : DashState :=
  { s with error := "", foundVehicle := none, actionMsg := "" }

/-- The synchronous part of one `handleSearch(key)` execution up to its
await: clear the displayed result, error and action message, then issue
the fetch for `key`.  `key` is the `searchReg` value captured by the
closure, and there is no emptiness or validity check on it. -/
def handleSearchStart (key : String) (s : DashState) : DashState :=
  let s1 := clearSearch s
  { s1 with pendingFetches := s1.pendingFetches ++ [key],
            gatewayCalls := s1.gatewayCalls ++ [key] }

/-- The continuation of `handleSearch` once its fetch resolves: on an ok
response store the record and speak it (when speechSynthesis exists); on
a non-ok response store `data.detail || "Vehicle not found"`; on a
rejected fetch store the runtime error message. -/
def resolveSearch (env : Env) (s : DashState) (o : FetchOutcome) : DashState :=
  match o with
  | .ok v =>
      let s1 := { s with foundVehicle := some v }
      if env.synthAvail then
        { s1 with announcements := s1.announcements ++ [speakText v] }
      else s1
  | .httpError d => { s with error := jsOr d notFoundFallback }
  | .transportError m => { s with error := m }

/-- One event on the browser event loop as the Dashboard observes it. -/
inductive Event where
  | clickMic
  | onStart
  | onResult (transcript : String)
  | onError (code : String)
  | onEnd
  | timerFire (i : Nat)
  | submitForm
  | resolveFetch (i : Nat) (o : FetchOutcome)

/-- One step of the Dashboard.  `clickMic` is `handleVoiceSearch`: with
the capability absent it only alerts; otherwise it configures the
recognition object, registers the four handlers (whose closures capture
the current `searchReg`), and starts recognition — it does not itself
touch `isListening` or `actionMsg`.  The four recognition events follow
their handlers in the source and no-op when no handler was registered.
`onResult` stores the normalized transcript, acknowledges, stops
listening and schedules a timer whose callback will run the captured
`handleSearch` closure; nothing cancels previously scheduled timers.
`timerFire`/`resolveFetch` consume an outstanding timer/fetch.
`submitForm` is the manual form, whose required input blocks an empty
`searchReg`. -/
def step (env : Env) (s : DashState) : Event → DashState
  | .clickMic =>
      if env.recogAvail then
        { s with handlersRegistered := true,
                 capturedKey := s.searchReg,
                 recogLang := some "en-IN",
                 recogContinuous := some false,
                 recogInterim := some false,
                 recogStarted := true }
      else
        { s with alerts := s.alerts ++ [capabilityAlertMsg] }
  | .onStart =>
      if s.handlersRegistered then
        { s with isListening := true, actionMsg := listeningMsg }
      else s
  | .onResult t =>
      if s.handlersRegistered then
        { s with searchReg := normalize t,
                 actionMsg := "✅ Heard: " ++ trimUpper t,
                 isListening := false,
                 pendingTimers := s.pendingTimers ++ [s.capturedKey] }
      else s
  | .onError _ =>
      if s.handlersRegistered then
        { s with isListening := false, actionMsg := voiceFailMsg }
      else s
  | .onEnd =>
      if s.handlersRegistered then { s with isListening := false } else s
  | .timerFire i =>
      match s.pendingTimers[i]? with
      | some key =>
          handleSearchStart key { s with pendingTimers := s.pendingTimers.eraseIdx i }
      | none => s
  | .submitForm =>
      if s.searchReg = "" then s else handleSearchStart s.searchReg s
  | .resolveFetch i o =>
      match s.pendingFetches[i]? with
      | some _ =>
          resolveSearch env { s with pendingFetches := s.pendingFetches.eraseIdx i } o
      | none => s

/-- A run of the event loop from a state through a list of events. -/
def run (env : Env) (s : DashState) (es : List Event) : DashState :=
  es.foldl (step env) s

/-- State right after a mic click from the initial state with the
capability present: handlers registered, captured key empty. -/
def afterClick : DashState := step envAll initState Event.clickMic

/-- Exactly one of the displayed result and the displayed error is
non-empty. -/
def exactlyOneOutcome (s : DashState) : Prop :=
  (s.foundVehicle ≠ none ∧ s.error = "") ∨ (s.foundVehicle = none ∧ s.error ≠ "")

/-- A rejected fetch carries a non-empty runtime error message (as every
browser runtime produces). -/
def wfOutcome : FetchOutcome → Prop
  | .transportError m => m ≠ ""
  | _ => True

theorem registered_step (env : Env) (s : DashState) (e : Event)
    (h : s.handlersRegistered = true) : (step env s e).handlersRegistered = true := by
  cases e with
  | clickMic => simp only [step]; split <;> simp [h]
  | onStart => simp [step, h]
  | onResult t => simp [step, h]
  | onError c => simp [step, h]
  | onEnd => simp [step, h]
  | timerFire i =>
      simp only [step]; split <;> simp [handleSearchStart, clearSearch, h]
  | submitForm =>
      simp only [step]; split <;> simp [handleSearchStart, clearSearch, h]
  | resolveFetch i o =>
      simp only [step]; split
      · cases o with
        | ok v => simp only [resolveSearch]; split <;> simp [h]
        | httpError d => simp [resolveSearch, h]
        | transportError m => simp [resolveSearch, h]
      · exact h

theorem registered_run (env : Env) (s : DashState) (es : List Event)
    (h : s.handlersRegistered = true) : (run env s es).handlersRegistered = true := by
  induction es generalizing s with
  | nil => exact h
  | cons e es ih => exact ih _ (registered_step env s e h)

theorem jsOr_notFound_ne_empty (d : Option String) :
    jsOr d notFoundFallback ≠ "" := by
  cases d with
  | none => simp [jsOr, notFoundFallback]
  | some t =>
      by_cases ht : t = "" <;> simp [jsOr, notFoundFallback, ht]

/-- C1 counterexample: two onResult events delivered within the
scheduling delay (no timer has fired in between) leave two
PendingSearches outstanding, and when both timers elapse two searches
are executed, not one — nothing in `recognition.onresult` cancels the
earlier setTimeout. -/
theorem C1_counterexample :
    (run envAll initState [Event.clickMic, Event.onResult "B 1",
      Event.clickMic, Event.onResult "C 2"]).pendingTimers.length = 2 ∧
    (run envAll initState [Event.clickMic, Event.onResult "B 1",
      Event.clickMic, Event.onResult "C 2", Event.timerFire 0,
      Event.timerFire 0]).gatewayCalls.length = 2 := by decide

/-- C1 amended: scheduling a second PendingSearch while one is
outstanding cancels nothing: starting from any state with registered
handlers and no timer outstanding, two onResult events leave two
PendingSearches outstanding, and firing both executes two searches, each
with the key the recognition handlers captured at registration. -/
theorem C1_second_schedule_does_not_cancel (env : Env) (s : DashState)
    (t1 t2 : String) (hreg : s.handlersRegistered = true)
    (hnil : s.pendingTimers = []) :
    (run env s [Event.onResult t1, Event.onResult t2]).pendingTimers =
      [s.capturedKey, s.capturedKey] ∧
    (run env s [Event.onResult t1, Event.onResult t2, Event.timerFire 0,
      Event.timerFire 0]).gatewayCalls =
      s.gatewayCalls ++ [s.capturedKey, s.capturedKey] := by
  simp [run, step, hreg, hnil, handleSearchStart, clearSearch]

/-- Witness for C1: the amended statement at the state right after a mic
click. -/
theorem C1_second_schedule_does_not_cancel_witness :
    (run envAll afterClick [Event.onResult "A 1", Event.onResult "B 2"]).pendingTimers =
      [afterClick.capturedKey, afterClick.capturedKey] ∧
    (run envAll afterClick [Event.onResult "A 1", Event.onResult "B 2",
      Event.timerFire 0, Event.timerFire 0]).gatewayCalls =
      afterClick.gatewayCalls ++ [afterClick.capturedKey, afterClick.capturedKey] :=
  C1_second_schedule_does_not_cancel envAll afterClick "A 1" "B 2"
    (by decide) (by decide)

/-- C2: the transcript is normalized into searchReg as claimed, but the
auto-search scheduled by `recognition.onresult` runs the `handleSearch`
closure captured when `handleVoiceSearch` ran, so the gateway is invoked
with the stale pre-click key (here the empty string), not with the
normalized transcript "MH12AB1234". -/
theorem C2_stale_closure_search :
    (run envAll initState [Event.clickMic, Event.onResult "MH 12 AB 1234",
      Event.timerFire 0]).searchReg = "MH12AB1234" ∧
    (run envAll initState [Event.clickMic, Event.onResult "MH 12 AB 1234",
      Event.timerFire 0]).gatewayCalls = [""] := by decide

/-- C3 counterexample: two form submissions whose fetches overlap, the
first resolving with a record and the second with a not-found error,
leave both the displayed result and the displayed error non-empty after
the second search completes. -/
theorem C3_counterexample :
    (run envAll { initState with searchReg := "A" }
      [Event.submitForm, Event.submitForm,
       Event.resolveFetch 0 (FetchOutcome.ok ⟨"Maruti", "Swift", "A", 500000⟩),
       Event.resolveFetch 0 (FetchOutcome.httpError (some "Vehicle not found"))]).foundVehicle
      ≠ none ∧
    (run envAll { initState with searchReg := "A" }
      [Event.submitForm, Event.submitForm,
       Event.resolveFetch 0 (FetchOutcome.ok ⟨"Maruti", "Swift", "A", 500000⟩),
       Event.resolveFetch 0 (FetchOutcome.httpError (some "Vehicle not found"))]).error
      ≠ "" := by decide

/-- C3 amended: every search execution clears the displayed result, the
displayed error and the action message at its start, and when its own
outcome arrives with no other search having interleaved, exactly one of
the displayed result and the displayed error is non-empty. -/
theorem C3_exactly_one_without_interleaving (env : Env) (s : DashState)
    (key : String) (o : FetchOutcome) (hwf : wfOutcome o) :
    (handleSearchStart key s).foundVehicle = none ∧
    (handleSearchStart key s).error = "" ∧
    (handleSearchStart key s).actionMsg = "" ∧
    exactlyOneOutcome (resolveSearch env (handleSearchStart key s) o) := by
  refine ⟨by simp [handleSearchStart, clearSearch],
    by simp [handleSearchStart, clearSearch],
    by simp [handleSearchStart, clearSearch], ?_⟩
  cases o with
  | ok v =>
      left
      constructor <;>
        · simp [resolveSearch, handleSearchStart, clearSearch]
          split <;> simp
  | httpError d =>
      right
      exact ⟨by simp [resolveSearch, handleSearchStart, clearSearch],
        by simpa [resolveSearch] using jsOr_notFound_ne_empty d⟩
  | transportError m =>
      right
      exact ⟨by simp [resolveSearch, handleSearchStart, clearSearch],
        by simpa [resolveSearch] using hwf⟩

/-- Witness for C3: the amended statement at a concrete not-found
resolution. -/
theorem C3_exactly_one_without_interleaving_witness :
    (handleSearchStart "XX0000" initState).foundVehicle = none ∧
    (handleSearchStart "XX0000" initState).error = "" ∧
    (handleSearchStart "XX0000" initState).actionMsg = "" ∧
    exactlyOneOutcome (resolveSearch envAll (handleSearchStart "XX0000" initState)
      (FetchOutcome.httpError (some "Vehicle not found"))) :=
  C3_exactly_one_without_interleaving envAll initState "XX0000"
    (FetchOutcome.httpError (some "Vehicle not found")) trivial

/-- C4: when the recognition capability is absent, `handleVoiceSearch`
only raises the unsupported-browser alert and returns: every state field
is unchanged, in particular ListeningState and the recognition start
flag. -/
theorem C4_capability_unavailable_noop (env : Env) (s : DashState)
    (h : env.recogAvail = false) :
    step env s Event.clickMic = { s with alerts := s.alerts ++ [capabilityAlertMsg] } ∧
    (step env s Event.clickMic).isListening = s.isListening ∧
    (step env s Event.clickMic).recogStarted = s.recogStarted := by
  simp [step, h]

/-- Witness for C4: the capability-absent no-op at the initial state. -/
theorem C4_capability_unavailable_noop_witness :
    step envNoVoice initState Event.clickMic =
      { initState with alerts := initState.alerts ++ [capabilityAlertMsg] } ∧
    (step envNoVoice initState Event.clickMic).isListening = initState.isListening ∧
    (step envNoVoice initState Event.clickMic).recogStarted = initState.recogStarted :=
  C4_capability_unavailable_noop envNoVoice initState (by decide)

/-- C5 counterexample: the `handleVoiceSearch` call itself does not
transition ListeningState to Listening and does not set the listening
announcement — from the initial state the call leaves isListening false
and the action message empty; those effects live in the onstart
handler. -/
theorem C5_counterexample :
    (step envAll initState Event.clickMic).isListening = false ∧
    (step envAll initState Event.clickMic).actionMsg = "" := by decide

/-- C5 amended: with the capability available, the call configures the
Recognition Source with language "en-IN", continuous false,
interimResults false, registers the handlers and starts it, leaving
ListeningState untouched; ListeningState becomes Listening and the
listening announcement is set when the subsequent onStart event
fires. -/
theorem C5_start_configures_and_onstart_listens (env : Env) (s : DashState)
    (h : env.recogAvail = true) :
    (step env s Event.clickMic).recogLang = some "en-IN" ∧
    (step env s Event.clickMic).recogContinuous = some false ∧
    (step env s Event.clickMic).recogInterim = some false ∧
    (step env s Event.clickMic).recogStarted = true ∧
    (step env s Event.clickMic).handlersRegistered = true ∧
    (step env s Event.clickMic).isListening = s.isListening ∧
    (run env s [Event.clickMic, Event.onStart]).isListening = true ∧
    (run env s [Event.clickMic, Event.onStart]).actionMsg = listeningMsg := by
  simp [step, run, h]

/-- Witness for C5: the amended statement at the initial state. -/
theorem C5_start_configures_and_onstart_listens_witness :
    (step envAll initState Event.clickMic).recogLang = some "en-IN" ∧
    (step envAll initState Event.clickMic).recogContinuous = some false ∧
    (step envAll initState Event.clickMic).recogInterim = some false ∧
    (step envAll initState Event.clickMic).recogStarted = true ∧
    (step envAll initState Event.clickMic).handlersRegistered = true ∧
    (step envAll initState Event.clickMic).isListening = initState.isListening ∧
    (run envAll initState [Event.clickMic, Event.onStart]).isListening = true ∧
    (run envAll initState [Event.clickMic, Event.onStart]).actionMsg = listeningMsg :=
  C5_start_configures_and_onstart_listens envAll initState (by decide)

/-- C6: after onEnd fires, ListeningState is Idle regardless of which
events preceded it — the onend handler sets isListening false
unconditionally, for every prior event sequence from any state with the
handlers registered. -/
theorem C6_onend_always_idle (env : Env) (s : DashState) (es : List Event)
    (h : s.handlersRegistered = true) :
    (run env s (es ++ [Event.onEnd])).isListening = false := by
  have hr := registered_run env s es h
  show ((es ++ [Event.onEnd]).foldl (step env) s).isListening = false
  rw [List.foldl_append]
  simp only [List.foldl_cons, List.foldl_nil]
  have : (es.foldl (step env) s) = run env s es := rfl
  rw [this]
  simp [step, hr]

/-- Witness for C6: onEnd after a start-then-result sequence. -/
theorem C6_onend_always_idle_witness :
    (run envAll afterClick ([Event.onStart, Event.onResult "MH 01"] ++
      [Event.onEnd])).isListening = false :=
  C6_onend_always_idle envAll afterClick [Event.onStart, Event.onResult "MH 01"]
    (by decide)

/-- C7: the onerror handler sets ListeningState to Idle and the
recognition-failure announcement, schedules no search (PendingSearches
and gateway calls unchanged) and leaves the displayed result and the
displayed error untouched. -/
theorem C7_onerror_frame (env : Env) (s : DashState) (c : String)
    (h : s.handlersRegistered = true) :
    (step env s (Event.onError c)).isListening = false ∧
    (step env s (Event.onError c)).actionMsg = voiceFailMsg ∧
    (step env s (Event.onError c)).pendingTimers = s.pendingTimers ∧
    (step env s (Event.onError c)).gatewayCalls = s.gatewayCalls ∧
    (step env s (Event.onError c)).foundVehicle = s.foundVehicle ∧
    (step env s (Event.onError c)).error = s.error := by
  simp [step, h]

/-- Witness for C7: the no-speech error right after a mic click. -/
theorem C7_onerror_frame_witness :
    (step envAll afterClick (Event.onError "no-speech")).isListening = false ∧
    (step envAll afterClick (Event.onError "no-speech")).actionMsg = voiceFailMsg ∧
    (step envAll afterClick (Event.onError "no-speech")).pendingTimers =
      afterClick.pendingTimers ∧
    (step envAll afterClick (Event.onError "no-speech")).gatewayCalls =
      afterClick.gatewayCalls ∧
    (step envAll afterClick (Event.onError "no-speech")).foundVehicle =
      afterClick.foundVehicle ∧
    (step envAll afterClick (Event.onError "no-speech")).error = afterClick.error :=
  C7_onerror_frame envAll afterClick "no-speech" (by decide)

/-- C9: a failed search stores the gateway's detail string when a
non-empty one is present, the generic fallback when the detail is
absent, and the transport error message on a rejected fetch; the
displayed result stays empty and the resolution issues no further
gateway call (no automatic retry). -/
theorem C9_failure_message (env : Env) (s : DashState) (key d m : String)
    (hd : d ≠ "") :
    (resolveSearch env (handleSearchStart key s) (FetchOutcome.httpError (some d))).error
      = d ∧
    (resolveSearch env (handleSearchStart key s) (FetchOutcome.httpError (some d))).foundVehicle
      = none ∧
    (resolveSearch env (handleSearchStart key s) (FetchOutcome.httpError none)).error
      = notFoundFallback ∧
    (resolveSearch env (handleSearchStart key s) (FetchOutcome.transportError m)).error
      = m ∧
    (resolveSearch env (handleSearchStart key s) (FetchOutcome.httpError (some d))).gatewayCalls
      = (handleSearchStart key s).gatewayCalls := by
  simp [resolveSearch, jsOr, handleSearchStart, clearSearch, hd]

/-- Witness for C9: the not-found scenario for key "XX0000" with detail
"Vehicle not found". -/
theorem C9_failure_message_witness :
    (resolveSearch envAll (handleSearchStart "XX0000" initState)
      (FetchOutcome.httpError (some "Vehicle not found"))).error = "Vehicle not found" ∧
    (resolveSearch envAll (handleSearchStart "XX0000" initState)
      (FetchOutcome.httpError (some "Vehicle not found"))).foundVehicle = none ∧
    (resolveSearch envAll (handleSearchStart "XX0000" initState)
      (FetchOutcome.httpError none)).error = notFoundFallback ∧
    (resolveSearch envAll (handleSearchStart "XX0000" initState)
      (FetchOutcome.transportError "Failed to fetch")).error = "Failed to fetch" ∧
    (resolveSearch envAll (handleSearchStart "XX0000" initState)
      (FetchOutcome.httpError (some "Vehicle not found"))).gatewayCalls =
      (handleSearchStart "XX0000" initState).gatewayCalls :=
  C9_failure_message envAll initState "XX0000" "Vehicle not found" "Failed to fetch"
    (by decide)

/-- C10: the shared search execution has no non-emptiness check — for
every key, including the empty string, it clears the displayed result
and error and invokes the gateway with that key; the voice-scheduled
auto-search from a fresh dashboard fires the gateway with the empty key,
while the manual form's required input blocks an empty submission. -/
theorem C10_no_emptiness_check :
    (∀ (key : String) (s : DashState),
      (handleSearchStart key s).gatewayCalls = s.gatewayCalls ++ [key] ∧
      (handleSearchStart key s).foundVehicle = none ∧
      (handleSearchStart key s).error = "") ∧
    (run envAll initState [Event.clickMic, Event.onResult "MH 12 AB 1234",
      Event.timerFire 0]).gatewayCalls = [""] ∧
    step envAll initState Event.submitForm = initState := by
  refine ⟨fun key s => ?_, by decide, by decide⟩
  simp [handleSearchStart, clearSearch]

end CarDetails
